import Mathlib

/-!
Verification of `src/infrastructure/init/secret.py` (tournabyte/webapi).

The script is a command-line secret initializer: it parses a positional key
and the flags `--value`, `--generate`, `--length`, creates the `.env` store
directory, validates the invocation, sources a secret (interactive input or
`secrets.token_urlsafe(length)`), and appends it to `.env/<key>.txt`.

The embedding below models the file system as an association list from path
strings to file contents, the entropy source `os.urandom` as a stream of
bytes, and the interactive input as an explicit string argument.  Each
Python function is translated to a Lean definition of the same name.
-/

namespace SecretInit

/-- A file system snapshot: the set of existing directories and the files as
an association list from path to contents. -/
structure FS where
  dirs : List String
  files : List (String × String)
deriving DecidableEq

/-- Contents of the file at path `p`, when it exists. -/
def lookupFile : List (String × String) → String → Option String
  | [], _ => none
  | (q, c) :: rest, p => if q = p then some c else lookupFile rest p

/-- Effect of opening the file at `p` in append mode (`open(..., "a")`) and
writing `v`: the file is created with contents `v` when absent, otherwise
`v` is appended to its existing contents. -/
def appendFile : List (String × String) → String → String → List (String × String)
  | [], p, v => [(p, v)]
  | (q, c) :: rest, p, v =>
      if q = p then (q, c ++ v) :: rest else (q, c) :: appendFile rest p v

/-- Join of two path components, following `pathlib`: an absolute second
component (leading slash) replaces the first. -/
def pathJoin (dir child : String) : String :=
  if child.data.head? = some '/' then child else dir ++ "/" ++ child

/-- Embeds `create_env_directory`: `Path(".env").mkdir(exist_ok=True)`.
The directory is created when absent and left alone when present; the
returned `Path` handle is the constant string `".env"`, so only the file
system effect is modelled here. -/
def create_env_directory (fs : FS) : FS :=
  { fs with dirs := if ".env" ∈ fs.dirs then fs.dirs else ".env" :: fs.dirs }

/-- The URL-safe base64 alphabet used by `base64.urlsafe_b64encode`. -/
def b64Alphabet : List Char :=
  "ABCDEFGHIJKLMNOPQRSTUVWXYZabcdefghijklmnopqrstuvwxyz0123456789-_".toList

/-- Character encoding one 6-bit group. -/
def b64Char (n : Nat) : Char := b64Alphabet.getD n 'A'

/-- base64url encoding of a byte list with the `=` padding stripped, as
`base64.urlsafe_b64encode(bs).rstrip(b"=")` produces: full 3-byte groups
give 4 characters, a trailing single byte gives 2 and a trailing pair
gives 3. -/
def b64urlNoPad : List Nat → List Char
  | [] => []
  | [a] => [b64Char (a / 4), b64Char (a % 4 * 16)]
  | [a, b] => [b64Char (a / 4), b64Char (a % 4 * 16 + b / 16), b64Char (b % 16 * 4)]
  | a :: b :: c :: rest =>
      b64Char (a / 4) :: b64Char (a % 4 * 16 + b / 16) ::
      b64Char (b % 16 * 4 + c / 64) :: b64Char (c % 64) :: b64urlNoPad rest

/-- The `n` random bytes `os.urandom(n)` returns, drawn from an abstract
entropy stream; each byte is below 256. -/
def tokenBytes (n : Nat) (entropy : Nat → Nat) : List Nat :=
  (List.range n).map (fun i => entropy i % 256)

/-- Embeds `generate_random_secret`: `secrets.token_urlsafe(length)`, i.e.
the padding-free base64url encoding of `length` random bytes. -/
def generate_random_secret (length : Nat) (entropy : Nat → Nat) : String :=
  String.mk (b64urlNoPad (tokenBytes length entropy))

/-- Embeds `read_secret_as_value`: `getpass` returns the line typed on the
controlling terminal verbatim (the prompt is not written to stdout). -/
def read_secret_as_value (input : String) : String := input

/-- Embeds `write_secret_to_file`: append `value` to the file at
`env_dir / (key + ".txt")`. -/
def write_secret_to_file (fs : FS) (env_dir key value : String) : FS :=
  { fs with files := appendFile fs.files (pathJoin env_dir (key ++ ".txt")) value }

/-- The result of `argparse`: an optional positional key (`nargs="?"`), two
boolean flags and the generated-secret length (default 32). -/
structure Args where
  key : Option String
  value : Bool
  generate : Bool
  length : Nat
deriving DecidableEq

/-- Python truthiness of `args.key` as tested by `if not args.key`: both
`None` (key absent) and the empty string are falsy. -/
def keyTruthy : Option String → Bool
  | none => false
  | some s => !(s == "")

/-- Observable outcome of one invocation of `main`: the final file system,
the lines printed to stdout, the exit status, whether `getpass` prompted,
and whether a random secret was generated. -/
structure RunResult where
  fs : FS
  stdout : List String
  exitCode : Nat
  prompted : Bool
  generated : Bool
deriving DecidableEq

/-- Message printed when no key name is supplied. -/
def missingKeyMsg : String :=
  "Error: Key name is required. Use --help for usage information."

/-- Message printed when both `--value` and `--generate` are set. -/
def conflictMsg : String := "Error: Cannot specify both --value and --generate"

/-- Message printed when neither `--value` nor `--generate` is set. -/
def noSourceMsg : String := "Error: Must specify secret source using --value or --generate"

/-- Embeds `main`: create the store directory, then validate (missing key,
then conflicting sources, then no source), then source the secret and
append it to the key file.  `sys.exit(1)` is a non-zero exit code; falling
off the end of `main` exits 0. -/
def main (args : Args) (fs0 : FS) (input : String) (entropy : Nat → Nat) : RunResult :=
  let env := create_env_directory fs0
  if !keyTruthy args.key then
    ⟨env, [missingKeyMsg], 1, false, false⟩
  else if args.value && args.generate then
    ⟨env, [conflictMsg], 1, false, false⟩
  else if args.value then
    ⟨write_secret_to_file env ".env" (args.key.getD "") (read_secret_as_value input),
      [], 0, true, false⟩
  else if args.generate then
    ⟨write_secret_to_file env ".env" (args.key.getD "")
        (generate_random_secret args.length entropy),
      ["Generated random secret: " ++ generate_random_secret args.length entropy],
      0, false, true⟩
  else
    ⟨env, [noSourceMsg], 1, false, false⟩

/-- The path of the file `write_secret_to_file` targets for a given key. -/
def secretPath (key : String) : String := pathJoin ".env" (key ++ ".txt")

example :
    (main ⟨some "db_password", false, true, 3⟩ ⟨[], []⟩ "" (fun _ => 0) ).stdout
      = ["Generated random secret: AAAA"] := by decide

example :
    (main ⟨some "k", true, false, 32⟩ ⟨[], []⟩ "abc" (fun _ => 0) ).fs.files
      = [(".env/k.txt", "abc")] := by decide

example :
    (main ⟨none, true, false, 32⟩ ⟨[], []⟩ "abc" (fun _ => 0) ).exitCode = 1 := by decide

/-- Appending at path `p` yields, at `p`, the old contents (empty when the
file was absent) followed by `v`. -/
theorem lookupFile_appendFile (files : List (String × String)) (p v : String) :
    lookupFile (appendFile files p v) p = some ((lookupFile files p).getD "" ++ v) := by
  induction files with
  | nil => simp [appendFile, lookupFile]
  | cons hd tl ih =>
      obtain ⟨q, c⟩ := hd
      by_cases h : q = p <;> simp [appendFile, lookupFile, h, ih]

/-- Appending at path `p` leaves every other path unchanged. -/
theorem lookupFile_appendFile_ne (files : List (String × String)) (p q v : String)
    (h : q ≠ p) :
    lookupFile (appendFile files p v) q = lookupFile files q := by
  induction files with
  | nil => simp [appendFile, lookupFile, Ne.symm h]
  | cons hd tl ih =>
      obtain ⟨r, c⟩ := hd
      by_cases hr : r = p <;> by_cases hq : r = q <;>
        simp_all [appendFile, lookupFile]

/-- Creating the store directory never touches any file. -/
theorem create_env_directory_files (fs : FS) :
    (create_env_directory fs).files = fs.files := rfl

/-- Encoded length of the padding-free base64url encoding: `n` input bytes
give `(4 * n + 2) / 3` output characters. -/
theorem length_b64urlNoPad : ∀ l : List Nat, (b64urlNoPad l).length = (4 * l.length + 2) / 3
  | [] => by simp [b64urlNoPad]
  | [_] => by simp [b64urlNoPad]
  | [_, _] => by simp [b64urlNoPad]
  | _ :: _ :: _ :: rest => by
      have ih := length_b64urlNoPad rest
      simp only [b64urlNoPad, List.length_cons, ih]
      omega

/-- C6: the `--length` parameter `N` counts random bytes consumed before
encoding, and the encoded output length is the deterministic function
`(4 * N + 2) / 3` of `N` alone (the padding-free base64url length of `N`
bytes), not an independently configurable character count. -/
theorem C6_length_counts_bytes (N : Nat) (entropy : Nat → Nat) :
    (tokenBytes N entropy).length = N
    ∧ (generate_random_secret N entropy).length = (4 * N + 2) / 3
    ∧ ∀ bs : List Nat, bs.length = N → (b64urlNoPad bs).length = (4 * N + 2) / 3 := by
  refine ⟨by simp [tokenBytes], ?_, ?_⟩
  · show (b64urlNoPad (tokenBytes N entropy)).length = (4 * N + 2) / 3
    rw [length_b64urlNoPad]
    simp [tokenBytes]
  · intro bs hbs
    rw [length_b64urlNoPad, hbs]

/-- Witness for C6 at `N = 4`, entropy stream constantly zero: four bytes
are consumed and the encoded output has `(4 * 4 + 2) / 3 = 6` characters,
also for the explicit byte list `[0, 0, 0, 0]`. -/
theorem C6_length_counts_bytes_witness :
    (tokenBytes 4 (fun _ => 0) ).length = 4
    ∧ (generate_random_secret 4 (fun _ => 0) ).length = 6
    ∧ (b64urlNoPad [0, 0, 0, 0]).length = 6 := by
  have h := C6_length_counts_bytes 4 (fun _ => 0)
  exact ⟨h.1, h.2.1, h.2.2 [0, 0, 0, 0] (by decide)⟩

/-- C7: persistence appends the raw value with no newline, delimiter or
re-encoding: writing `v1` then `v2` to the same (initially absent) key
file leaves the file holding exactly `v1 ++ v2`. -/
theorem C7_append_raw_concat (fs : FS) (k v1 v2 : String)
    (h : lookupFile fs.files (secretPath k) = none) :
    lookupFile
      (write_secret_to_file (write_secret_to_file fs ".env" k v1) ".env" k v2).files
      (secretPath k) = some (v1 ++ v2) := by
  have h' : lookupFile fs.files (pathJoin ".env" (k ++ ".txt")) = none := h
  simp [write_secret_to_file, secretPath, lookupFile_appendFile, h']

/-- Witness for C7: on an empty file system, writing `"abc"` then `"def"`
under key `"k"` yields file contents exactly `"abcdef"`. -/
theorem C7_append_raw_concat_witness :
    lookupFile
      (write_secret_to_file (write_secret_to_file ⟨[], []⟩ ".env" "k" "abc")
        ".env" "k" "def").files
      (secretPath "k") = some "abcdef" := by
  have h := C7_append_raw_concat ⟨[], []⟩ "k" "abc" "def" (by decide)
  simpa using h

/-- C8: store-directory creation is idempotent and total: running it twice
equals running it once, afterwards `.env` exists, and no file is touched,
so a second invocation never fails because the directory already exists. -/
theorem C8_mkdir_idempotent (fs : FS) :
    create_env_directory (create_env_directory fs) = create_env_directory fs
    ∧ ".env" ∈ (create_env_directory fs).dirs
    ∧ (create_env_directory fs).files = fs.files := by
  by_cases h : ".env" ∈ fs.dirs <;> simp [create_env_directory, h]

/-- C10: the key is joined to the store path without any sanitization:
for every key `k` the write targets `pathJoin ".env" (k ++ ".txt")`, so
keys holding path separators escape the flat layout, e.g. key `"a/b"`
writes `.env/a/b.txt` and key `"../x"` writes `.env/../x.txt`. -/
theorem C10_no_key_sanitization (fs : FS) (k v : String) :
    (write_secret_to_file fs ".env" k v).files
      = appendFile fs.files (pathJoin ".env" (k ++ ".txt")) v
    ∧ pathJoin ".env" ("a/b" ++ ".txt") = ".env/a/b.txt"
    ∧ pathJoin ".env" ("../x" ++ ".txt") = ".env/../x.txt"
    ∧ lookupFile (write_secret_to_file ⟨[], []⟩ ".env" "a/b" v).files ".env/a/b.txt"
      = some v := by
  refine ⟨rfl, by decide, by decide, ?_⟩
  simp [write_secret_to_file, lookupFile, appendFile, pathJoin]

/-- The single secret value an invocation sources, given exactly one
sourcing mode: the interactive line for `--value`, the generated token for
`--generate`. -/
def sourcedValue (args : Args) (input : String) (entropy : Nat → Nat) : String :=
  if args.value then read_secret_as_value input
  else generate_random_secret args.length entropy

/-- C1: per invocation, exactly one value is written to exactly one key
file, and only when exactly one sourcing mode was selected: with a truthy
key and exactly one of `--value`/`--generate`, the run appends the single
sourced value to the single path `secretPath key` (every other path is
untouched) and exits 0; with zero or two sourcing modes, or without a key,
the files are exactly as before and the run exits 1. -/
theorem C1_exactly_one_write (args : Args) (fs : FS) (input : String)
    (entropy : Nat → Nat) :
    ((keyTruthy args.key = true ∧ args.value ≠ args.generate) →
      (main args fs input entropy).fs.files
          = appendFile fs.files (secretPath (args.key.getD ""))
              (sourcedValue args input entropy)
        ∧ (∀ p, p ≠ secretPath (args.key.getD "") →
            lookupFile (main args fs input entropy).fs.files p = lookupFile fs.files p)
        ∧ (main args fs input entropy).exitCode = 0)
    ∧ (¬(keyTruthy args.key = true ∧ args.value ≠ args.generate) →
      (main args fs input entropy).fs.files = fs.files
        ∧ (main args fs input entropy).exitCode = 1) := by
  obtain ⟨key, value, generate, length⟩ := args
  constructor
  · rintro ⟨hk, hne⟩
    cases value <;> cases generate
    · exact absurd rfl hne
    · refine ⟨?_, ?_, ?_⟩ <;>
        simp [main, hk, write_secret_to_file, secretPath, sourcedValue,
          create_env_directory]
      intro p hp
      exact lookupFile_appendFile_ne _ _ _ _ hp
    · refine ⟨?_, ?_, ?_⟩ <;>
        simp [main, hk, write_secret_to_file, secretPath, sourcedValue,
          read_secret_as_value, create_env_directory]
      intro p hp
      exact lookupFile_appendFile_ne _ _ _ _ hp
    · exact absurd rfl hne
  · intro h
    by_cases hk : keyTruthy key = true
    · have hvg : value = generate := by
        by_contra hne
        exact h ⟨hk, hne⟩
      subst hvg
      cases value <;> simp [main, hk, create_env_directory]
    · have hk' : keyTruthy key = false := by simpa using hk
      simp [main, hk', create_env_directory]

/-- Witness for C1: with key `"k"` and only `--generate` (length 3) a
single append to `.env/k.txt` happens and the run exits 0; with both flags
set the files are untouched and the run exits 1. -/
theorem C1_exactly_one_write_witness :
    ((main ⟨some "k", false, true, 3⟩ ⟨[], []⟩ "" (fun _ => 0) ).fs.files
        = appendFile ([] : List (String × String)) (secretPath "k")
            (sourcedValue ⟨some "k", false, true, 3⟩ "" (fun _ => 0) )
      ∧ (main ⟨some "k", false, true, 3⟩ ⟨[], []⟩ "" (fun _ => 0) ).exitCode = 0)
    ∧ ((main ⟨some "k", true, true, 3⟩ ⟨[], []⟩ "" (fun _ => 0) ).fs.files = []
      ∧ (main ⟨some "k", true, true, 3⟩ ⟨[], []⟩ "" (fun _ => 0) ).exitCode = 1) := by
  have h1 := (C1_exactly_one_write ⟨some "k", false, true, 3⟩ ⟨[], []⟩ "" (fun _ => 0)).1
    ⟨by decide, by decide⟩
  have h2 := (C1_exactly_one_write ⟨some "k", true, true, 3⟩ ⟨[], []⟩ "" (fun _ => 0)).2
    (by decide)
  exact ⟨⟨h1.1, h1.2.2⟩, h2⟩

/-- C2: on a valid `--generate` run, the value echoed to stdout after the
`Generated random secret: ` marker and the value appended to the key file
are the same string, character for character. -/
theorem C2_echo_matches_file (args : Args) (fs : FS) (input : String)
    (entropy : Nat → Nat) (hk : keyTruthy args.key = true)
    (hg : args.generate = true) (hv : args.value = false) :
    (main args fs input entropy).stdout
      = ["Generated random secret: " ++ generate_random_secret args.length entropy]
    ∧ lookupFile (main args fs input entropy).fs.files (secretPath (args.key.getD ""))
      = some ((lookupFile fs.files (secretPath (args.key.getD ""))).getD ""
          ++ generate_random_secret args.length entropy)
    ∧ (main args fs input entropy).exitCode = 0 := by
  obtain ⟨key, value, generate, length⟩ := args
  simp only at hk hg hv
  subst hg hv
  refine ⟨?_, ?_, ?_⟩ <;>
    simp [main, hk, write_secret_to_file, secretPath, create_env_directory,
      lookupFile_appendFile]

/-- Witness for C2: key `"db_password"`, `--generate --length 16`, zero
entropy stream: stdout echoes exactly the 22-character token that lands in
`.env/db_password.txt`, and the run exits 0. -/
theorem C2_echo_matches_file_witness :
    (main ⟨some "db_password", false, true, 16⟩ ⟨[], []⟩ "" (fun _ => 0) ).stdout
      = ["Generated random secret: "
          ++ generate_random_secret 16 (fun _ => 0) ]
    ∧ lookupFile (main ⟨some "db_password", false, true, 16⟩ ⟨[], []⟩ ""
          (fun _ => 0) ).fs.files (secretPath "db_password")
      = some ((lookupFile ([] : List (String × String)) (secretPath "db_password")).getD ""
          ++ generate_random_secret 16 (fun _ => 0) )
    ∧ (main ⟨some "db_password", false, true, 16⟩ ⟨[], []⟩ "" (fun _ => 0) ).exitCode
      = 0 :=
  C2_echo_matches_file ⟨some "db_password", false, true, 16⟩ ⟨[], []⟩ "" (fun _ => 0)
    (by decide) rfl rfl

/-- C3: an invocation without a (truthy) key exits 1 after printing the
missing-key message, and no file anywhere is created or modified. -/
theorem C3_missing_key_no_write (args : Args) (fs : FS) (input : String)
    (entropy : Nat → Nat) (hk : keyTruthy args.key = false) :
    (main args fs input entropy).exitCode ≠ 0
    ∧ (main args fs input entropy).stdout = [missingKeyMsg]
    ∧ (main args fs input entropy).fs.files = fs.files := by
  refine ⟨?_, ?_, ?_⟩ <;> simp [main, hk, create_env_directory]

/-- Witness for C3: no key argument at all, `--generate` set: exit 1,
missing-key message, files untouched. -/
theorem C3_missing_key_no_write_witness :
    (main ⟨none, false, true, 32⟩ ⟨[], [(".env/a.txt", "x")]⟩ "" (fun _ => 0) ).exitCode ≠ 0
    ∧ (main ⟨none, false, true, 32⟩ ⟨[], [(".env/a.txt", "x")]⟩ ""
        (fun _ => 0) ).stdout = [missingKeyMsg]
    ∧ (main ⟨none, false, true, 32⟩ ⟨[], [(".env/a.txt", "x")]⟩ ""
        (fun _ => 0) ).fs.files = [(".env/a.txt", "x")] :=
  C3_missing_key_no_write ⟨none, false, true, 32⟩ ⟨[], [(".env/a.txt", "x")]⟩ ""
    (fun _ => 0) rfl

/-- C4: an invocation with both `--value` and `--generate` (and a truthy
key, so the conflict check is the one that fires) exits non-zero before
any secret is sourced: no interactive prompt, no generation, no write.
Without a truthy key the earlier missing-key check exits likewise before
sourcing. -/
theorem C4_conflict_before_sourcing (args : Args) (fs : FS) (input : String)
    (entropy : Nat → Nat) (hv : args.value = true) (hg : args.generate = true) :
    (main args fs input entropy).exitCode ≠ 0
    ∧ (main args fs input entropy).prompted = false
    ∧ (main args fs input entropy).generated = false
    ∧ (main args fs input entropy).fs.files = fs.files := by
  obtain ⟨key, value, generate, length⟩ := args
  simp only at hv hg
  subst hv hg
  by_cases hk : keyTruthy key = true <;>
    refine ⟨?_, ?_, ?_, ?_⟩ <;>
    simp [main, hk, create_env_directory]

/-- Witness for C4: key `"k"`, both flags set: exit 1 with neither prompt
nor generation and no file change. -/
theorem C4_conflict_before_sourcing_witness :
    (main ⟨some "k", true, true, 32⟩ ⟨[], []⟩ "" (fun _ => 0) ).exitCode ≠ 0
    ∧ (main ⟨some "k", true, true, 32⟩ ⟨[], []⟩ "" (fun _ => 0) ).prompted = false
    ∧ (main ⟨some "k", true, true, 32⟩ ⟨[], []⟩ "" (fun _ => 0) ).generated = false
    ∧ (main ⟨some "k", true, true, 32⟩ ⟨[], []⟩ "" (fun _ => 0) ).fs.files = [] :=
  C4_conflict_before_sourcing ⟨some "k", true, true, 32⟩ ⟨[], []⟩ "" (fun _ => 0) rfl rfl

/-- C5: validation fires in the fixed order missing key, then conflicting
sources, then no source: a falsy key reports the missing-key message
whatever the flags (so the earliest violated rule wins), a truthy key with
both flags reports the conflict message, and a truthy key with neither
flag reports the no-source message; each case exits 1. -/
theorem C5_validation_order (args : Args) (fs : FS) (input : String)
    (entropy : Nat → Nat) :
    (keyTruthy args.key = false →
      (main args fs input entropy).stdout = [missingKeyMsg]
        ∧ (main args fs input entropy).exitCode = 1)
    ∧ (keyTruthy args.key = true → args.value = true → args.generate = true →
      (main args fs input entropy).stdout = [conflictMsg]
        ∧ (main args fs input entropy).exitCode = 1)
    ∧ (keyTruthy args.key = true → args.value = false → args.generate = false →
      (main args fs input entropy).stdout = [noSourceMsg]
        ∧ (main args fs input entropy).exitCode = 1) := by
  obtain ⟨key, value, generate, length⟩ := args
  refine ⟨fun hk => ?_, fun hk hv hg => ?_, fun hk hv hg => ?_⟩
  · constructor <;> simp [main, hk]
  · simp only at hv hg
    subst hv hg
    constructor <;> simp [main, hk]
  · simp only at hv hg
    subst hv hg
    constructor <;> simp [main, hk]

/-- Witness for C5: no key with both flags set reports the missing-key
message (the earliest rule), key `"k"` with both flags the conflict
message, key `"k"` with neither flag the no-source message. -/
theorem C5_validation_order_witness :
    ((main ⟨none, true, true, 32⟩ ⟨[], []⟩ "" (fun _ => 0) ).stdout = [missingKeyMsg]
      ∧ (main ⟨none, true, true, 32⟩ ⟨[], []⟩ "" (fun _ => 0) ).exitCode = 1)
    ∧ ((main ⟨some "k", true, true, 32⟩ ⟨[], []⟩ "" (fun _ => 0) ).stdout = [conflictMsg]
      ∧ (main ⟨some "k", true, true, 32⟩ ⟨[], []⟩ "" (fun _ => 0) ).exitCode = 1)
    ∧ ((main ⟨some "k", false, false, 32⟩ ⟨[], []⟩ "" (fun _ => 0) ).stdout = [noSourceMsg]
      ∧ (main ⟨some "k", false, false, 32⟩ ⟨[], []⟩ "" (fun _ => 0) ).exitCode = 1) :=
  ⟨(C5_validation_order ⟨none, true, true, 32⟩ ⟨[], []⟩ "" (fun _ => 0)).1 rfl,
   (C5_validation_order ⟨some "k", true, true, 32⟩ ⟨[], []⟩ "" (fun _ => 0)).2.1
     (by decide) rfl rfl,
   (C5_validation_order ⟨some "k", false, false, 32⟩ ⟨[], []⟩ "" (fun _ => 0)).2.2
     (by decide) rfl rfl⟩

/-- C9: an empty-string key is falsy under Python truthiness, so it is
treated exactly like an absent key: missing-key message, exit 1, no file
written, in particular no `.env/.txt` is created. -/
theorem C9_empty_key_is_missing (args : Args) (fs : FS) (input : String)
    (entropy : Nat → Nat) (hk : args.key = some "") :
    (main args fs input entropy).exitCode = 1
    ∧ (main args fs input entropy).stdout = [missingKeyMsg]
    ∧ (main args fs input entropy).fs.files = fs.files
    ∧ (lookupFile fs.files ".env/.txt" = none →
        lookupFile (main args fs input entropy).fs.files ".env/.txt" = none) := by
  have hkt : keyTruthy args.key = false := by simp [hk, keyTruthy]
  refine ⟨?_, ?_, ?_, ?_⟩ <;> simp [main, hkt, create_env_directory]

/-- Witness for C9: key `""` with `--generate` on an empty file system:
exit 1, missing-key message, no files at all and no `.env/.txt`. -/
theorem C9_empty_key_is_missing_witness :
    (main ⟨some "", false, true, 32⟩ ⟨[], []⟩ "" (fun _ => 0) ).exitCode = 1
    ∧ (main ⟨some "", false, true, 32⟩ ⟨[], []⟩ "" (fun _ => 0) ).stdout = [missingKeyMsg]
    ∧ (main ⟨some "", false, true, 32⟩ ⟨[], []⟩ "" (fun _ => 0) ).fs.files = []
    ∧ lookupFile (main ⟨some "", false, true, 32⟩ ⟨[], []⟩ ""
        (fun _ => 0) ).fs.files ".env/.txt" = none := by
  have h := C9_empty_key_is_missing ⟨some "", false, true, 32⟩ ⟨[], []⟩ "" (fun _ => 0) rfl
  exact ⟨h.1, h.2.1, h.2.2.1, h.2.2.2 rfl⟩

end SecretInit
